import Mathlib

/-!
Verification of the NeuroLens2 realtime-assistant client against its
specification.  The repository contains two variants of the assistant
component: the primary one in `src/components/RealtimeAssistant.tsx`
(below suffixed `V1`) and a legacy copy appended to
`src/app/api/describe-scene/route.ts` (suffixed `V2`), plus the
describe-scene POST route itself.  JavaScript values flowing through
`JSON.parse` are embedded as the inductive `Json`; `Option Json` stands
for a possibly-`undefined` JavaScript value, and `Except` captures
thrown exceptions (a `.error` carries the component state at the throw
point, since React state updates applied before the throw survive it).
-/

namespace NeuroLens

/-- A parsed JSON value (the result of `JSON.parse`).  JSON numbers in this
development are integer-valued; no event payload field handled by the code
carries a fractional number. -/
inductive Json where
  | null
  | bool (b : Bool)
  | num (n : Int)
  | str (s : String)
  | arr (elems : List Json)
  | obj (fields : List (String × Json))
deriving Repr

/-- Whether a value is the JSON literal `null` (the only nullish value
`JSON.parse` can produce). -/
def isNullLit : Json → Bool
  | Json.null => true
  | _ => false

/-- First-match lookup in a JSON object's field list, as JavaScript property
lookup does on object literals. -/
def lookupField : List (String × Json) → String → Option Json
  | [], _ => none
  | (k, v) :: rest, key => if k = key then some v else lookupField rest key

/-- JavaScript property access `v.k` on a non-nullish value: objects look up
the key, every other value yields `undefined` (the code never reads built-in
properties such as `length` through these paths). -/
def jsProp : Json → String → Option Json
  | Json.obj fields, key => lookupField fields key
  | _, _ => none

/-- Whether a JavaScript value is nullish (`undefined` or `null`), the
condition under which property access throws and `?.` short-circuits. -/
def nullish : Option Json → Bool
  | none => true
  | some Json.null => true
  | some _ => false

/-- Optional-chaining access `v?.k`: yields `undefined` on a nullish base
instead of throwing. -/
def jsOptProp (v : Option Json) (key : String) : Option Json :=
  match v with
  | none => none
  | some Json.null => none
  | some j => jsProp j key

/-- JavaScript index access `v[i]` on a non-nullish base: arrays index their
elements, objects look up the stringified key, strings yield one-character
strings, other primitives yield `undefined`. -/
def jsIndex : Json → Nat → Option Json
  | Json.arr elems, i => elems.get? i
  | Json.obj fields, i => lookupField fields (toString i)
  | Json.str s, i => (s.toList.get? i).map (fun c => Json.str (String.singleton c))
  | _, _ => none

/-- Optional index access `v?.[i]`. -/
def jsOptIndex (v : Option Json) (i : Nat) : Option Json :=
  match v with
  | none => none
  | some Json.null => none
  | some j => jsIndex j i

/-- JavaScript truthiness: `undefined`, `null`, `false`, `0` and the empty
string are falsy; every other value (including `[]` and objects) is truthy. -/
def truthy : Option Json → Bool
  | none => false
  | some Json.null => false
  | some (Json.bool b) => b
  | some (Json.num n) => decide (n ≠ 0)
  | some (Json.str s) => decide (s ≠ "")
  | some (Json.arr _) => true
  | some (Json.obj _) => true

mutual
/-- JavaScript string conversion of a value, as performed by string
concatenation: arrays join their elements with commas (nullish elements
become empty), plain objects become `[object Object]`. -/
def jsToString : Json → String
  | Json.null => "null"
  | Json.bool true => "true"
  | Json.bool false => "false"
  | Json.num n => toString n
  | Json.str s => s
  | Json.arr elems => jsArrString elems
  | Json.obj _ => "[object Object]"

/-- Comma-joined string conversion of array elements. -/
def jsArrString : List Json → String
  | [] => ""
  | [Json.null] => ""
  | [j] => jsToString j
  | Json.null :: rest => "," ++ jsArrString rest
  | j :: rest => jsToString j ++ "," ++ jsArrString rest
end

/-- String conversion of a possibly-`undefined` value, as `"" + v` produces
it (`undefined` prints as the string `undefined`). -/
def undefToString : Option Json → String
  | none => "undefined"
  | some j => jsToString j

/-- A local media track; `stopped` records whether `track.stop()` ran. -/
structure Track where
  stopped : Bool
deriving Repr, DecidableEq

/-- `track.stop()`. -/
def stopTrack (_t : Track) : Track := ⟨true⟩

/-- The `RTCPeerConnection` held by the component; `connState` mirrors
`connectionState` ("new" on creation, "closed" after `close()`). -/
structure PeerConn where
  connState : String
deriving Repr, DecidableEq

/-- The `RTCDataChannel` held by the component; `readyState` is "connecting"
on creation and "open" once the channel opened. -/
structure DataChan where
  readyState : String
deriving Repr, DecidableEq

/-- The React component state together with the refs it owns.  `audioTracks`
and `videoTracks` are the track objects acquired by the current `getUserMedia`
call (observable even after the stream refs are nulled); `audioRef` /
`videoRef` record whether the corresponding stream ref currently holds a
stream.  The legacy variant V2 has a single `localStreamRef` (audio only) and
none of the video / scene fields; it simply never touches them. -/
structure AState where
  isConnected : Bool
  transcription : String
  responseText : String
  sceneDescription : String
  isVideoEnabled : Bool
  videoError : Option String
  isProcessingScene : Bool
  peerConnection : Option PeerConn
  dataChannel : Option DataChan
  audioTracks : List Track
  videoTracks : List Track
  audioRef : Bool
  videoRef : Bool
deriving Repr, DecidableEq

/-- The component state on mount. -/
def initialState : AState :=
  ⟨false, "", "", "", false, none, false, none, none, [], [], false, false⟩

/-! ## Data-channel message handling

`handleDataChannelMessage` parses `event.data` and dispatches on `msg.type`
inside a `try`/`catch` that logs and drops on any failure.  Dispatch is
modelled as `Except AState AState`: `.error s` means a `TypeError` was thrown
with the component state at that moment being `s`; the surrounding catch
turns either outcome back into a plain state. -/

/-- Dispatch of a parsed message in the primary component
(`src/components/RealtimeAssistant.tsx`, `handleDataChannelMessage`).
Accessing `.type` on a parsed `null` throws; `session.created` logs
`msg.session.id`, which throws when `msg.session` is nullish; the two delta
cases append `msg.delta` to their accumulator; `response.done` replaces the
transcription with `msg.response.input_transcription` when that value is
truthy; unknown tags fall to the default case and are ignored. -/
def dispatchV1 (m : Json) (s : AState) : Except AState AState :=
  if isNullLit m then Except.error s
  else
    match jsProp m "type" with
    | some (Json.str "session.created") =>
        if nullish (jsProp m "session") then Except.error s else Except.ok s
    | some (Json.str "response.audio_transcript.delta") =>
        Except.ok { s with
          transcription := s.transcription ++ undefToString (jsProp m "delta") }
    | some (Json.str "response.text.delta") =>
        Except.ok { s with
          responseText := s.responseText ++ undefToString (jsProp m "delta") }
    | some (Json.str "response.done") =>
        let it := jsOptProp (jsProp m "response") "input_transcription"
        if truthy it then
          Except.ok { s with transcription := undefToString it }
        else Except.ok s
    | _ => Except.ok s

/-- Evaluation of `msg.response?.output?.[0]?.content[0].text` in the legacy
variant: each `?.` short-circuits the whole chain to `undefined` on a nullish
base, but the plain accesses `content[0]` and `.text` throw when their base
is nullish. -/
def chainOutputText (m : Json) : Except Unit (Option Json) :=
  let r := jsProp m "response"
  if nullish r then Except.ok none
  else
    let o := jsOptProp r "output"
    if nullish o then Except.ok none
    else
      let e0 := jsOptIndex o 0
      if nullish e0 then Except.ok none
      else
        let c := jsOptProp e0 "content"
        if nullish c then Except.error ()
        else
          let t0 := jsOptIndex c 0
          if nullish t0 then Except.error ()
          else Except.ok (jsOptProp t0 "text")

/-- Dispatch of a parsed message in the legacy variant (the
`handleDataChannelMessage` appended in `src/app/api/describe-scene/route.ts`).
Its `response.done` case first replaces the transcription when
`msg.response?.input_transcription` is truthy, then evaluates
`msg.response?.output?.[0]?.content[0].text` — which can throw after the
transcription was already replaced — and replaces `responseText` when that
text is truthy.  The duplicated `response.audio_transcript.delta` case label
in the source is unreachable (the first matching case wins) and has the same
body, so dispatch has a single entry for that tag.  This variant's `switch`
has no default case; unmatched tags do nothing. -/
def dispatchV2 (m : Json) (s : AState) : Except AState AState :=
  if isNullLit m then Except.error s
  else
    match jsProp m "type" with
    | some (Json.str "session.created") =>
        if nullish (jsProp m "session") then Except.error s else Except.ok s
    | some (Json.str "response.audio_transcript.delta") =>
        Except.ok { s with
          transcription := s.transcription ++ undefToString (jsProp m "delta") }
    | some (Json.str "response.text.delta") =>
        Except.ok { s with
          responseText := s.responseText ++ undefToString (jsProp m "delta") }
    | some (Json.str "response.done") =>
        let it := jsOptProp (jsProp m "response") "input_transcription"
        let s1 := if truthy it then { s with transcription := undefToString it } else s
        match chainOutputText m with
        | Except.error _ => Except.error s1
        | Except.ok tv =>
            if truthy tv then
              Except.ok { s1 with responseText := undefToString tv }
            else Except.ok s1
    | _ => Except.ok s

/-- The full primary handler: `parsed = none` models `JSON.parse` throwing on
non-JSON data; the catch logs and returns, keeping whatever state the
dispatch reached. -/
def handleV1 (parsed : Option Json) (s : AState) : AState :=
  match parsed with
  | none => s
  | some m =>
      match dispatchV1 m s with
      | Except.ok s1 => s1
      | Except.error s1 => s1

/-- The full legacy handler, with the same catch semantics. -/
def handleV2 (parsed : Option Json) (s : AState) : AState :=
  match parsed with
  | none => s
  | some m =>
      match dispatchV2 m s with
      | Except.ok s1 => s1
      | Except.error s1 => s1

/-- A `response.audio_transcript.delta` event carrying delta `d`. -/
def transcriptDelta (d : String) : Json :=
  Json.obj [("type", Json.str "response.audio_transcript.delta"), ("delta", Json.str d)]

/-- A `response.done` event whose `response` payload is the object `rf`. -/
def doneMsg (rf : List (String × Json)) : Json :=
  Json.obj [("type", Json.str "response.done"), ("response", Json.obj rf)]

/-- Folding a handler over a list of already-parsed inbound messages in
arrival order. -/
def runMsgs (handle : Option Json → AState → AState)
    (msgs : List Json) (s : AState) : AState :=
  msgs.foldl (fun st m => handle (some m) st) s

/-! ## Session teardown (`disconnectFromOpenAI`) -/

/-- `disconnectFromOpenAI` of the primary component: close and null the peer
connection and data channel, stop and null both local streams (clearing the
video element's source), then reset `isConnected` and all three text
states. -/
def disconnectV1 (s : AState) : AState :=
  let s1 := { s with peerConnection := none, dataChannel := none }
  let s2 := if s1.audioRef then
      { s1 with audioTracks := s1.audioTracks.map stopTrack, audioRef := false }
    else s1
  let s3 := if s2.videoRef then
      { s2 with videoTracks := s2.videoTracks.map stopTrack, videoRef := false }
    else s2
  { s3 with isConnected := false, transcription := "", responseText := "",
            sceneDescription := "" }

/-- `disconnectFromOpenAI` of the legacy variant: close and null the peer
connection and data channel, stop and null the single local (audio) stream,
then reset `isConnected` and the two accumulators. -/
def disconnectV2 (s : AState) : AState :=
  let s1 := { s with peerConnection := none, dataChannel := none }
  let s2 := if s1.audioRef then
      { s1 with audioTracks := s1.audioTracks.map stopTrack, audioRef := false }
    else s1
  { s2 with isConnected := false, transcription := "", responseText := "" }

/-! ## Connection establishment (`connectToOpenAI`) -/

/-- Outcomes of the external steps a `connectToOpenAI` attempt performs, in
program order: the ephemeral-token fetch, `getUserMedia`, the video element's
presence and `play()` call (primary component only), the SDP negotiation
fetch, and `setRemoteDescription`. -/
structure ConnectEnv where
  tokenOk : Bool
  mediaOk : Bool
  videoElPresent : Bool
  playOk : Bool
  sdpOk : Bool
  setRemoteOk : Bool
deriving Repr, DecidableEq

/-- Whether the held peer connection reports `connectionState` "connected"
(the early-return guard of both `connectToOpenAI` variants). -/
def pcConnectedGuard (s : AState) : Bool :=
  match s.peerConnection with
  | some pc => pc.connState = "connected"
  | none => false

/-- `connectToOpenAI` of the primary component.  It resets the text states,
then in a single `try` block fetches the token, creates the peer connection,
acquires audio+video via `initializeVideoStream` (whose failed `play()` is
swallowed by `.catch(handleVideoError)`, which stops the video tracks and
nulls the video ref — after which `setIsVideoEnabled(true)` still runs),
creates the data channel, and negotiates; any thrown step lands in a catch
that alerts once and calls `disconnectFromOpenAI`.  Returns the new state and
the list of alerts raised. -/
def connectV1 (env : ConnectEnv) (s : AState) : AState × List String :=
  if pcConnectedGuard s then (s, [])
  else
    let s0 := { s with transcription := "", responseText := "",
                       sceneDescription := "", videoError := none }
    if !env.tokenOk then
      (disconnectV1 s0, ["Connection error: Failed to get session token"])
    else
      let s1 := { s0 with peerConnection := some ⟨"new"⟩ }
      if !env.mediaOk then
        let s2 := { s1 with videoError := some "Failed to initialize video",
                            isVideoEnabled := false }
        (disconnectV1 s2, ["Connection error: Failed to initialize video"])
      else
        let s2 := { s1 with audioTracks := [⟨false⟩], videoTracks := [⟨false⟩],
                            audioRef := true, videoRef := true }
        let s3 :=
          if env.videoElPresent then
            if env.playOk then { s2 with isVideoEnabled := true }
            else
              let sErr := { s2 with videoTracks := s2.videoTracks.map stopTrack,
                                    videoRef := false,
                                    videoError := some "play failed",
                                    isVideoEnabled := false }
              { sErr with isVideoEnabled := true }
          else s2
        let s4 := { s3 with dataChannel := some ⟨"connecting"⟩ }
        if !env.sdpOk then
          (disconnectV1 s4, ["Connection error: Failed to get SDP answer"])
        else if !env.setRemoteOk then
          (disconnectV1 s4, ["Connection error: setRemoteDescription failed"])
        else
          ({ s4 with isConnected := true }, [])

/-- `connectToOpenAI` of the legacy variant.  A failed token fetch alerts and
returns before any resource is created.  After the peer connection, the
microphone stream and the data channel are set up, a non-success negotiation
response alerts, calls `pc.close()` and returns — without stopping the
acquired tracks, without nulling any ref and without touching `isConnected`;
a later thrown step (`setRemoteDescription`) lands in the catch, which alerts,
closes the peer connection (again keeping refs and running tracks) and sets
`isConnected` to false. -/
def connectV2 (env : ConnectEnv) (s : AState) : AState × List String :=
  if pcConnectedGuard s then (s, [])
  else
    if !env.tokenOk then
      (s, ["Failed to get session token: Unknown error"])
    else
      let s1 := { s with peerConnection := some ⟨"new"⟩ }
      if !env.mediaOk then
        ({ s1 with peerConnection := some ⟨"closed"⟩, isConnected := false },
         ["Error initializing WebRTC: getUserMedia failed"])
      else
        let s2 := { s1 with audioTracks := [⟨false⟩], audioRef := true }
        let s3 := { s2 with dataChannel := some ⟨"connecting"⟩ }
        if !env.sdpOk then
          ({ s3 with peerConnection := some ⟨"closed"⟩ },
           ["Failed to get SDP answer: provider error body"])
        else if !env.setRemoteOk then
          ({ s3 with peerConnection := some ⟨"closed"⟩, isConnected := false },
           ["Error initializing WebRTC: setRemoteDescription failed"])
        else
          ({ s3 with isConnected := true }, [])

/-! ## Outbound commands (`speakText`) and scene description -/

/-- The `conversation.item.create` command `speakText` sends, carrying `t` as
the user-message input text. -/
def createItemEvent (t : String) : Json :=
  Json.obj [("type", Json.str "conversation.item.create"),
            ("item", Json.obj [("type", Json.str "message"),
                               ("role", Json.str "user"),
                               ("content", Json.arr [Json.obj
                                  [("type", Json.str "input_text"),
                                   ("text", Json.str t)]])])]

/-- The `response.create` command `speakText` sends after the item. -/
def createResponseEvent : Json :=
  Json.obj [("type", Json.str "response.create"),
            ("response", Json.obj [("modalities",
               Json.arr [Json.str "audio", Json.str "text"])])]

/-- `speakText` of the primary component: a warning no-op when the data
channel is absent or not open; otherwise it clears `responseText` and sends
the item-create then the response-create command, in that order.  Returns
the new state and the list of messages sent on the data channel. -/
def speakText (t : String) (s : AState) : AState × List Json :=
  match s.dataChannel with
  | none => (s, [])
  | some dc =>
      if dc.readyState = "open" then
        ({ s with responseText := "" }, [createItemEvent t, createResponseEvent])
      else (s, [])

/-- Outcomes of the external steps of `requestSceneDescription`: whether the
video element has a source object, the video dimensions at the first check
and after the single 100 ms retry, canvas-context availability, and the
describe-scene fetch outcome (`apiOk` mirrors `response.ok`, `apiJson` the
result of `response.json()`). -/
structure SceneEnv where
  videoSrcObject : Bool
  w : Nat
  h : Nat
  w2 : Nat
  h2 : Nat
  ctxOk : Bool
  apiOk : Bool
  apiJson : Except Unit Json

/-- The outcome of one `requestSceneDescription` call: the final component
state, the messages sent on the data channel, and the alerts raised. -/
structure SceneResult where
  state : AState
  sent : List Json
  alerts : List String

/-- The error message thrown for a non-success describe-scene response:
`errorData.error || 'Failed to get scene description'`; a body that fails to
parse as JSON rejects with its own parse error. -/
def sceneFetchErrMsg (body : Except Unit Json) : String :=
  match body with
  | Except.error _ => "Unexpected end of JSON input"
  | Except.ok j =>
      if truthy (jsProp j "error") then undefToString (jsProp j "error")
      else "Failed to get scene description"

/-- `requestSceneDescription` of the primary component.  Precondition checks:
not connected alerts and returns untouched; a missing video stream or source
object alerts and records a video error.  Otherwise it marks processing,
captures a frame (throwing when the dimensions are still zero after the one
retry, or when the canvas context is unavailable), posts it to the
describe-scene endpoint, and on a truthy `description` exposes it and calls
`speakText` with it; any thrown step lands in the catch, which writes an
`Error:`-prefixed scene description and a video error; the `finally` clears
the processing flag. -/
def requestSceneDescription (env : SceneEnv) (s : AState) : SceneResult :=
  if !s.isConnected then
    ⟨s, [], ["Please connect the assistant first."]⟩
  else if !s.videoRef || !env.videoSrcObject then
    ⟨{ s with videoError := some "Video stream not available to capture frame." },
     [], ["Video stream not available."]⟩
  else
    let sp := { s with isProcessingScene := true,
                       sceneDescription := "Capturing frame and analyzing scene...",
                       videoError := none }
    let fail : String → SceneResult := fun m =>
      ⟨{ sp with sceneDescription := "Error: " ++ m,
                 videoError := some ("Error during scene analysis: " ++ m),
                 isProcessingScene := false }, [], []⟩
    if (env.w = 0 || env.h = 0) && (env.w2 = 0 || env.h2 = 0) then
      fail "Video dimensions not available"
    else if !env.ctxOk then
      fail "Could not get canvas context"
    else if !env.apiOk then
      fail (sceneFetchErrMsg env.apiJson)
    else
      match env.apiJson with
      | Except.error _ => fail "Unexpected end of JSON input"
      | Except.ok j =>
          let d := jsProp j "description"
          if truthy d then
            let sd := { sp with sceneDescription := undefToString d }
            let (sFinal, sent) := speakText (undefToString d) sd
            ⟨{ sFinal with isProcessingScene := false }, sent, []⟩
          else fail "No description received from the server"

/-! ## The describe-scene POST route (`src/app/api/describe-scene/route.ts`) -/

/-- The upstream chat-completions response observed by the route: `ok` and
`status` from `fetch`, `body` the result of `openaiResponse.json()` (which
rejects on a non-JSON body). -/
structure Upstream where
  ok : Bool
  status : Nat
  body : Except Unit Json
deriving Repr

/-- The route's HTTP response together with whether the upstream provider
was contacted before producing it. -/
structure PostRes where
  status : Nat
  body : Json
  contactedUpstream : Bool
deriving Repr

/-- A `\x7b error: msg \x7d` JSON body. -/
def errBody (msg : String) : Json := Json.obj [("error", Json.str msg)]

/-- Evaluation of `data.choices?.[0]?.message?.content`, an all-optional
chain that never throws. -/
def choicesContent (dat : Json) : Option Json :=
  jsOptProp (jsOptProp (jsOptIndex (jsProp dat "choices") 0) "message") "content"

/-- The describe-scene `POST` handler.  A missing server API key yields 500
before reading the body.  A request body that fails to parse lands in the
catch (500), and so does the body that parses to the JSON literal `null`:
destructuring `const ... = await request.json()` throws a TypeError on a
null value.  A falsy `image_data_url` yields 400 without contacting the
provider.  Otherwise the provider is contacted: on a non-success response the
parsed error body is passed through with the provider's status (a body that
fails to parse lands in the catch, 500); on success `data.choices` is read
with a plain access — a JSON-null success body therefore throws into the
catch (500) — and a truthy `choices?.[0]?.message?.content` yields 200 with
the description, else 500. -/
def describeScenePOST (apiKey : Option String) (reqBody : Except Unit Json)
    (up : Upstream) : PostRes :=
  match apiKey with
  | none => ⟨500, errBody "OpenAI API key not configured on server.", false⟩
  | some _ =>
    match reqBody with
    | Except.error _ => ⟨500, errBody "Internal server error.", false⟩
    | Except.ok j =>
        if isNullLit j then ⟨500, errBody "Internal server error.", false⟩
        else if !truthy (jsProp j "image_data_url") then
          ⟨400, errBody "No image data provided.", false⟩
        else
          if !up.ok then
            match up.body with
            | Except.ok eb =>
                ⟨up.status,
                 Json.obj [("error", Json.str "Failed to get description from OpenAI."),
                           ("details", eb)], true⟩
            | Except.error _ => ⟨500, errBody "Internal server error.", true⟩
          else
            match up.body with
            | Except.error _ => ⟨500, errBody "Internal server error.", true⟩
            | Except.ok dat =>
                if isNullLit dat then
                  ⟨500, errBody "Internal server error.", true⟩
                else
                  let d := choicesContent dat
                  if truthy d then
                    ⟨200, Json.obj [("description",
                       match d with | some v => v | none => Json.null)], true⟩
                  else ⟨500, errBody "No description received from OpenAI.", true⟩

/-- Concatenation of a list of delta strings in order. -/
def concatList : List String → String
  | [] => ""
  | d :: rest => d ++ concatList rest

/-- The text carried by a `conversation.item.create` command, read back from
the wire shape: `item.content[0].text`. -/
def itemContentText (m : Json) : Option Json :=
  jsOptProp (jsOptIndex (jsOptProp (jsProp m "item") "content") 0) "text"

/-! ## Helper lemmas -/

theorem strAppendAssoc (a b c : String) : (a ++ b) ++ c = a ++ (b ++ c) := by
  apply String.ext
  simp [String.data_append]

theorem handleV1_delta (d : String) (s : AState) :
    handleV1 (some (transcriptDelta d)) s =
      { s with transcription := s.transcription ++ d } := by
  simp [handleV1, dispatchV1, transcriptDelta, jsProp, lookupField, isNullLit,
        undefToString, jsToString]

theorem handleV2_delta (d : String) (s : AState) :
    handleV2 (some (transcriptDelta d)) s =
      { s with transcription := s.transcription ++ d } := by
  simp [handleV2, dispatchV2, transcriptDelta, jsProp, lookupField, isNullLit,
        undefToString, jsToString]

theorem handleV1_done_noFinal (rf : List (String × Json)) (s : AState)
    (h1 : lookupField rf "input_transcription" = none) :
    handleV1 (some (doneMsg rf)) s = s := by
  simp [handleV1, dispatchV1, doneMsg, jsProp, lookupField, isNullLit,
        jsOptProp, h1, truthy]

theorem handleV2_done_noFinal (rf : List (String × Json)) (s : AState)
    (h1 : lookupField rf "input_transcription" = none)
    (h2 : lookupField rf "output" = none) :
    handleV2 (some (doneMsg rf)) s = s := by
  simp [handleV2, dispatchV2, doneMsg, jsProp, lookupField, isNullLit,
        jsOptProp, chainOutputText, nullish, h1, h2, truthy]

/-- In the legacy handler, any `response.done` whose payload lacks the
`input_transcription` field preserves the transcription accumulator, whatever
the `output` path does — whether it is absent, yields a truthy final text
(which replaces only `responseText`), or throws on a malformed shape. -/
theorem handleV2_done_noFinal_trans (rf : List (String × Json)) (s : AState)
    (h1 : lookupField rf "input_transcription" = none) :
    (handleV2 (some (doneMsg rf)) s).transcription = s.transcription := by
  cases h : dispatchV2 (doneMsg rf) s with
  | ok s1 =>
      have he : handleV2 (some (doneMsg rf)) s = s1 := by simp [handleV2, h]
      rw [he]
      simp [dispatchV2, doneMsg, isNullLit, jsProp, lookupField, jsOptProp,
            h1, truthy] at h
      repeat' split at h
      all_goals simp_all
      all_goals (subst h; rfl)
  | error s1 =>
      have he : handleV2 (some (doneMsg rf)) s = s1 := by simp [handleV2, h]
      rw [he]
      simp [dispatchV2, doneMsg, isNullLit, jsProp, lookupField, jsOptProp,
            h1, truthy] at h
      repeat' split at h
      all_goals simp_all

theorem runMsgs_cons (handle : Option Json → AState → AState)
    (m : Json) (ms : List Json) (s : AState) :
    runMsgs handle (m :: ms) s = runMsgs handle ms (handle (some m) s) := rfl

theorem runMsgs_single (handle : Option Json → AState → AState)
    (m : Json) (s : AState) :
    runMsgs handle [m] s = handle (some m) s := rfl

theorem runMsgs_append (handle : Option Json → AState → AState)
    (ms1 ms2 : List Json) (s : AState) :
    runMsgs handle (ms1 ++ ms2) s = runMsgs handle ms2 (runMsgs handle ms1 s) :=
  List.foldl_append _ _ _ _

theorem runMsgs_deltas_V1 (ds : List String) (s : AState) :
    runMsgs handleV1 (ds.map transcriptDelta) s =
      { s with transcription := s.transcription ++ concatList ds } := by
  induction ds generalizing s with
  | nil => simp [runMsgs, concatList]
  | cons d rest ih =>
      rw [List.map_cons, runMsgs_cons, handleV1_delta, ih]
      simp [concatList, strAppendAssoc]

theorem runMsgs_deltas_V2 (ds : List String) (s : AState) :
    runMsgs handleV2 (ds.map transcriptDelta) s =
      { s with transcription := s.transcription ++ concatList ds } := by
  induction ds generalizing s with
  | nil => simp [runMsgs, concatList]
  | cons d rest ih =>
      rw [List.map_cons, runMsgs_cons, handleV2_delta, ih]
      simp [concatList, strAppendAssoc]

/-! ## Claim theorems -/

/-- C1: for every sequence of `response.audio_transcript.delta` events with
deltas d1..dn delivered in order, followed by a `response.done` whose payload
has no final transcription field — whatever else the payload carries,
including an `output` field of any shape — the transcription accumulator,
starting empty, equals the concatenation d1+d2+...+dn in arrival order, each
delta appended exactly once.  Proved for both handler variants. -/
theorem transcript_deltas_concat_in_order (ds : List String) (s1 s2 : AState)
    (rf : List (String × Json))
    (h1 : s1.transcription = "") (h2 : s2.transcription = "")
    (hrf1 : lookupField rf "input_transcription" = none) :
    (runMsgs handleV1 (ds.map transcriptDelta ++ [doneMsg rf]) s1).transcription
        = concatList ds ∧
    (runMsgs handleV2 (ds.map transcriptDelta ++ [doneMsg rf]) s2).transcription
        = concatList ds := by
  constructor
  · rw [runMsgs_append, runMsgs_deltas_V1]
    rw [show runMsgs handleV1 [doneMsg rf] _ = _ from
      handleV1_done_noFinal rf _ hrf1]
    simp [h1]
  · rw [runMsgs_append, runMsgs_deltas_V2, runMsgs_single,
        handleV2_done_noFinal_trans rf _ hrf1]
    simp [h2]

/-- Witness for C1: the deltas "Hel", "lo" followed by a `response.done`
whose payload carries an `output` entry but no final transcription field
accumulate to "Hello" in both handlers. -/
theorem transcript_deltas_concat_in_order_witness :
    (runMsgs handleV1 (["Hel", "lo"].map transcriptDelta ++
        [doneMsg [("output", Json.arr [Json.obj []])]])
        initialState).transcription = concatList ["Hel", "lo"] ∧
    (runMsgs handleV2 (["Hel", "lo"].map transcriptDelta ++
        [doneMsg [("output", Json.arr [Json.obj []])]])
        initialState).transcription = concatList ["Hel", "lo"] :=
  transcript_deltas_concat_in_order ["Hel", "lo"] initialState initialState
    [("output", Json.arr [Json.obj []])] rfl rfl rfl

/-- C2 counterexample: a `response.done` payload that includes the final
input transcription `""` (the field is present, with the empty string as its
value) does not replace the accumulator: the JavaScript truthiness guard
`if (msg.response?.input_transcription)` treats the empty string as absent,
so the accumulator keeps its prior deltas "abc" instead of the included final
value. -/
theorem done_empty_final_not_replaced :
    (handleV1 (some (doneMsg [("input_transcription", Json.str "")]))
        { initialState with transcription := "abc" }).transcription = "abc" ∧
    (handleV1 (some (doneMsg [("input_transcription", Json.str "")]))
        { initialState with transcription := "abc" }).transcription ≠ "" := by
  constructor
  · rfl
  · decide

/-- C2 amended: if a `response.done` payload includes a non-empty final input
transcription, then after handling that event the transcription accumulator
equals that final value, replacing whatever partial deltas were accumulated
before it; an empty-string final transcription is treated as absent and
leaves the accumulator unchanged. -/
theorem done_nonempty_final_replaces (s : AState) (t : String)
    (rest : List (String × Json)) (h : t ≠ "") :
    (handleV1 (some (doneMsg (("input_transcription", Json.str t) :: rest)))
        s).transcription = t := by
  simp [handleV1, dispatchV1, doneMsg, jsProp, lookupField, isNullLit,
        jsOptProp, truthy, undefToString, jsToString, h]

/-- Witness for the amended C2: the final value "final" replaces the
previously accumulated partial "par". -/
theorem done_nonempty_final_replaces_witness :
    (handleV1 (some (doneMsg [("input_transcription", Json.str "final")]))
        { initialState with transcription := "par" }).transcription = "final" :=
  done_nonempty_final_replaces { initialState with transcription := "par" }
    "final" [] (by decide)

/-- C9: a `response.done` event whose `response` payload has no final
transcription field and no output field (e.g. the empty object) leaves the
whole component state — in particular both the transcription and
responseText accumulators — unchanged, in both handler variants. -/
theorem done_no_finals_frame (rf : List (String × Json)) (s1 s2 : AState)
    (h1 : lookupField rf "input_transcription" = none)
    (h2 : lookupField rf "output" = none) :
    handleV1 (some (doneMsg rf)) s1 = s1 ∧ handleV2 (some (doneMsg rf)) s2 = s2 :=
  ⟨handleV1_done_noFinal rf s1 h1, handleV2_done_noFinal rf s2 h1 h2⟩

/-- Witness for C9: `response: \x7b\x7d` with accumulated "abc" / "Hello"
leaves both accumulators as they were. -/
theorem done_no_finals_frame_witness :
    handleV1 (some (doneMsg []))
        { initialState with transcription := "abc", responseText := "Hello" } =
      { initialState with transcription := "abc", responseText := "Hello" } ∧
    handleV2 (some (doneMsg []))
        { initialState with transcription := "abc", responseText := "Hello" } =
      { initialState with transcription := "abc", responseText := "Hello" } :=
  done_no_finals_frame []
    { initialState with transcription := "abc", responseText := "Hello" }
    { initialState with transcription := "abc", responseText := "Hello" } rfl rfl

/-- C5: `disconnectFromOpenAI` is idempotent in both variants: from any
starting state a second call produces exactly the state of the first (and the
function is total, so no error is raised), and after each call the state is
disconnected with the transport, channel and stream references released and
both accumulator buffers cleared. -/
theorem disconnect_idempotent (s : AState) :
    disconnectV1 (disconnectV1 s) = disconnectV1 s ∧
    (disconnectV1 s).isConnected = false ∧
    (disconnectV1 s).peerConnection = none ∧
    (disconnectV1 s).dataChannel = none ∧
    (disconnectV1 s).audioRef = false ∧
    (disconnectV1 s).videoRef = false ∧
    (disconnectV1 s).transcription = "" ∧
    (disconnectV1 s).responseText = "" ∧
    disconnectV2 (disconnectV2 s) = disconnectV2 s ∧
    (disconnectV2 s).isConnected = false ∧
    (disconnectV2 s).peerConnection = none ∧
    (disconnectV2 s).dataChannel = none ∧
    (disconnectV2 s).audioRef = false ∧
    (disconnectV2 s).transcription = "" ∧
    (disconnectV2 s).responseText = "" := by
  cases hA : s.audioRef <;> cases hV : s.videoRef <;>
    simp [disconnectV1, disconnectV2, hA, hV]

/-- C3 counterexample: in the legacy variant, a `connectToOpenAI` attempt
whose token fetch and microphone acquisition succeed but whose negotiation
request returns a non-success response merely alerts and calls `pc.close()`:
the acquired microphone track is left running (not stopped), the stream ref
and data-channel ref are still held, and the closed peer connection ref is
retained — a half-open state the claim rules out. -/
theorem legacy_connect_negotiation_leak :
    ((connectV2 ⟨true, true, true, true, false, true⟩ initialState).1.audioTracks.all
        (fun t => t.stopped)) = false ∧
    (connectV2 ⟨true, true, true, true, false, true⟩ initialState).1.audioRef = true ∧
    (connectV2 ⟨true, true, true, true, false, true⟩ initialState).1.dataChannel
        = some ⟨"connecting"⟩ ∧
    (connectV2 ⟨true, true, true, true, false, true⟩ initialState).1.peerConnection
        = some ⟨"closed"⟩ := by
  decide

/-- C3 amended: in the primary component, every `connectToOpenAI` invocation
that fails at the negotiation step (non-success response to the offer, or
failure setting the remote description) stops all media tracks acquired
during the attempt, releases the transport, channel and stream references,
leaves the session not connected, and surfaces exactly one descriptive
error; the legacy variant appended in `route.ts` instead closes the
transport but leaves the acquired tracks running and the refs held. -/
theorem connect_negotiation_failure_cleanup (env : ConnectEnv) (s : AState)
    (hg : pcConnectedGuard s = false)
    (ht : env.tokenOk = true) (hm : env.mediaOk = true)
    (hf : env.sdpOk = false ∨ env.setRemoteOk = false) :
    ((connectV1 env s).1.audioTracks.all (fun t => t.stopped)) = true ∧
    ((connectV1 env s).1.videoTracks.all (fun t => t.stopped)) = true ∧
    (connectV1 env s).1.peerConnection = none ∧
    (connectV1 env s).1.dataChannel = none ∧
    (connectV1 env s).1.audioRef = false ∧
    (connectV1 env s).1.videoRef = false ∧
    (connectV1 env s).1.isConnected = false ∧
    (connectV1 env s).2.length = 1 := by
  cases env with
  | mk tok med vel pl sdp srd =>
      simp only at ht hm hf
      subst ht; subst hm
      cases vel <;> cases pl <;> cases sdp <;> cases srd <;>
        simp_all [connectV1, disconnectV1, pcConnectedGuard, stopTrack]

/-- Witness for the amended C3: a concrete attempt failing at the SDP
exchange from the initial state ends fully cleaned up with one alert. -/
theorem connect_negotiation_failure_cleanup_witness :
    ((connectV1 ⟨true, true, true, true, false, true⟩ initialState).1.audioTracks.all
        (fun t => t.stopped)) = true ∧
    ((connectV1 ⟨true, true, true, true, false, true⟩ initialState).1.videoTracks.all
        (fun t => t.stopped)) = true ∧
    (connectV1 ⟨true, true, true, true, false, true⟩ initialState).1.peerConnection = none ∧
    (connectV1 ⟨true, true, true, true, false, true⟩ initialState).1.dataChannel = none ∧
    (connectV1 ⟨true, true, true, true, false, true⟩ initialState).1.audioRef = false ∧
    (connectV1 ⟨true, true, true, true, false, true⟩ initialState).1.videoRef = false ∧
    (connectV1 ⟨true, true, true, true, false, true⟩ initialState).1.isConnected = false ∧
    (connectV1 ⟨true, true, true, true, false, true⟩ initialState).2.length = 1 :=
  connect_negotiation_failure_cleanup ⟨true, true, true, true, false, true⟩
    initialState rfl rfl rfl (Or.inl rfl)

/-- C6: invoking the scene description while not connected alerts
"Please connect the assistant first." (the precondition failure), sends no
message on any channel, and leaves the component state completely
unchanged. -/
theorem scene_disconnected_precondition (env : SceneEnv) (s : AState)
    (h : s.isConnected = false) :
    requestSceneDescription env s
      = ⟨s, [], ["Please connect the assistant first."]⟩ := by
  simp [requestSceneDescription, h]

/-- Witness for C6: the call from the initial (disconnected) state. -/
theorem scene_disconnected_precondition_witness :
    requestSceneDescription ⟨true, 0, 0, 0, 0, true, true, Except.ok Json.null⟩
        initialState
      = ⟨initialState, [], ["Please connect the assistant first."]⟩ :=
  scene_disconnected_precondition
    ⟨true, 0, 0, 0, 0, true, true, Except.ok Json.null⟩ initialState rfl

/-- C4: when the scene description succeeds with non-empty description D
while connected, with the video stream present and the data channel open,
exactly two messages are sent in order — a `conversation.item.create` whose
`item.content[0].text` equals D, then a `response.create` — and the exposed
scene-description value equals D. -/
theorem scene_success_sends_item_then_response (env : SceneEnv) (s : AState)
    (D : String)
    (hc : s.isConnected = true) (hv : s.videoRef = true)
    (hso : env.videoSrcObject = true)
    (hw : env.w ≠ 0) (hh : env.h ≠ 0)
    (hctx : env.ctxOk = true) (hok : env.apiOk = true)
    (hjson : env.apiJson = Except.ok (Json.obj [("description", Json.str D)]))
    (hD : D ≠ "")
    (hdc : s.dataChannel = some ⟨"open"⟩) :
    (requestSceneDescription env s).sent
        = [createItemEvent D, createResponseEvent] ∧
    (requestSceneDescription env s).state.sceneDescription = D ∧
    itemContentText (createItemEvent D) = some (Json.str D) ∧
    jsProp (createItemEvent D) "type"
        = some (Json.str "conversation.item.create") ∧
    jsProp createResponseEvent "type" = some (Json.str "response.create") := by
  simp [requestSceneDescription, hc, hv, hso, hw, hh, hctx, hok, hjson, hD,
        speakText, hdc, truthy, jsProp, lookupField, undefToString, jsToString,
        itemContentText, createItemEvent, createResponseEvent, jsOptProp,
        jsOptIndex, jsIndex]

/-- Witness for C4: the description "A red chair" from a connected state with
an open channel yields exactly the two commands and exposes the value. -/
theorem scene_success_sends_item_then_response_witness :
    (requestSceneDescription
        ⟨true, 640, 480, 640, 480, true, true,
         Except.ok (Json.obj [("description", Json.str "A red chair")])⟩
        { initialState with isConnected := true, videoRef := true,
                            dataChannel := some ⟨"open"⟩ }).sent
        = [createItemEvent "A red chair", createResponseEvent] ∧
    (requestSceneDescription
        ⟨true, 640, 480, 640, 480, true, true,
         Except.ok (Json.obj [("description", Json.str "A red chair")])⟩
        { initialState with isConnected := true, videoRef := true,
                            dataChannel := some ⟨"open"⟩ }).state.sceneDescription
        = "A red chair" ∧
    itemContentText (createItemEvent "A red chair")
        = some (Json.str "A red chair") ∧
    jsProp (createItemEvent "A red chair") "type"
        = some (Json.str "conversation.item.create") ∧
    jsProp createResponseEvent "type" = some (Json.str "response.create") :=
  scene_success_sends_item_then_response
    ⟨true, 640, 480, 640, 480, true, true,
     Except.ok (Json.obj [("description", Json.str "A red chair")])⟩
    { initialState with isConnected := true, videoRef := true,
                        dataChannel := some ⟨"open"⟩ }
    "A red chair" rfl rfl rfl (by decide) (by decide) rfl rfl rfl (by decide) rfl

/-- C7: every scene-description invocation that fails at image capture
(video dimensions still zero after the single bounded retry, or no canvas
context) or at the description service call (non-success response) surfaces
an `Error:`-prefixed descriptive error in the scene description together
with a video-error notice, and writes zero messages to the event channel —
the synthesized turn is all-or-nothing. -/
theorem scene_failure_no_channel_writes (env : SceneEnv) (s : AState)
    (hc : s.isConnected = true) (hv : s.videoRef = true)
    (hso : env.videoSrcObject = true)
    (hfail : ((env.w = 0 ∨ env.h = 0) ∧ (env.w2 = 0 ∨ env.h2 = 0)) ∨
             env.ctxOk = false ∨ env.apiOk = false) :
    (requestSceneDescription env s).sent = [] ∧
    ∃ m, (requestSceneDescription env s).state.sceneDescription
            = "Error: " ++ m ∧
         (requestSceneDescription env s).state.videoError
            = some ("Error during scene analysis: " ++ m) := by
  rcases hfail with ⟨h1, h2⟩ | h | h
  · have hb : ((env.w = 0 || env.h = 0) && (env.w2 = 0 || env.h2 = 0)) = true := by
      rcases h1 with h1 | h1 <;> rcases h2 with h2 | h2 <;> simp [h1, h2]
    refine ⟨?_, "Video dimensions not available", ?_, ?_⟩ <;>
      simp [requestSceneDescription, hc, hv, hso, hb]
  · by_cases hb : ((env.w = 0 || env.h = 0) && (env.w2 = 0 || env.h2 = 0)) = true
    · refine ⟨?_, "Video dimensions not available", ?_, ?_⟩ <;>
        simp [requestSceneDescription, hc, hv, hso, hb]
    · rw [Bool.not_eq_true] at hb
      refine ⟨?_, "Could not get canvas context", ?_, ?_⟩ <;>
        simp [requestSceneDescription, hc, hv, hso, hb, h]
  · by_cases hb : ((env.w = 0 || env.h = 0) && (env.w2 = 0 || env.h2 = 0)) = true
    · refine ⟨?_, "Video dimensions not available", ?_, ?_⟩ <;>
        simp [requestSceneDescription, hc, hv, hso, hb]
    · rw [Bool.not_eq_true] at hb
      by_cases hctx : env.ctxOk = true
      · refine ⟨?_, sceneFetchErrMsg env.apiJson, ?_, ?_⟩ <;>
          simp [requestSceneDescription, hc, hv, hso, hb, hctx, h]
      · rw [Bool.not_eq_true] at hctx
        refine ⟨?_, "Could not get canvas context", ?_, ?_⟩ <;>
          simp [requestSceneDescription, hc, hv, hso, hb, hctx]

/-- Witness for C7: a capture whose dimensions are still zero after the
retry sends nothing and surfaces the capture error. -/
theorem scene_failure_no_channel_writes_witness :
    (requestSceneDescription ⟨true, 0, 0, 0, 0, true, true, Except.ok Json.null⟩
        { initialState with isConnected := true, videoRef := true }).sent = [] ∧
    ∃ m, (requestSceneDescription
            ⟨true, 0, 0, 0, 0, true, true, Except.ok Json.null⟩
            { initialState with isConnected := true,
                                videoRef := true }).state.sceneDescription
            = "Error: " ++ m ∧
         (requestSceneDescription
            ⟨true, 0, 0, 0, 0, true, true, Except.ok Json.null⟩
            { initialState with isConnected := true,
                                videoRef := true }).state.videoError
            = some ("Error during scene analysis: " ++ m) :=
  scene_failure_no_channel_writes
    ⟨true, 0, 0, 0, 0, true, true, Except.ok Json.null⟩
    { initialState with isConnected := true, videoRef := true }
    rfl rfl rfl (Or.inl ⟨Or.inl rfl, Or.inl rfl⟩)

theorem dispatchV1_error_eq (m : Json) (s s1 : AState)
    (h : dispatchV1 m s = Except.error s1) : s1 = s := by
  simp only [dispatchV1] at h
  repeat' split at h
  all_goals simp_all

theorem dispatchV1_ok_isConnected (m : Json) (s s1 : AState)
    (h : dispatchV1 m s = Except.ok s1) : s1.isConnected = s.isConnected := by
  simp only [dispatchV1] at h
  repeat' split at h
  all_goals simp_all
  all_goals (subst h; rfl)

theorem dispatchV2_error_shape (m : Json) (s s1 : AState)
    (h : dispatchV2 m s = Except.error s1) :
    s1.isConnected = s.isConnected ∧
    s1.responseText = s.responseText ∧
    (s1.transcription = s.transcription ∨
     s1.transcription = undefToString
        (jsOptProp (jsProp m "response") "input_transcription")) := by
  simp only [dispatchV2] at h
  repeat' split at h
  all_goals simp_all
  all_goals (subst h; simp)

theorem dispatchV2_ok_isConnected (m : Json) (s s1 : AState)
    (h : dispatchV2 m s = Except.ok s1) : s1.isConnected = s.isConnected := by
  simp only [dispatchV2] at h
  repeat' split at h
  all_goals simp_all
  all_goals (subst h; rfl)

theorem handleV1_preserves_isConnected (m : Json) (s : AState) :
    (handleV1 (some m) s).isConnected = s.isConnected := by
  cases h : dispatchV1 m s with
  | ok s1 => simp only [handleV1, h]; exact dispatchV1_ok_isConnected m s s1 h
  | error s1 => simp only [handleV1, h]; rw [dispatchV1_error_eq m s s1 h]

theorem handleV2_preserves_isConnected (m : Json) (s : AState) :
    (handleV2 (some m) s).isConnected = s.isConnected := by
  cases h : dispatchV2 m s with
  | ok s1 => simp only [handleV2, h]; exact dispatchV2_ok_isConnected m s s1 h
  | error s1 => simp only [handleV2, h]; exact (dispatchV2_error_shape m s s1 h).1

/-- C8 counterexample: in the legacy handler, a `response.done` carrying a
truthy final input transcription together with an `output` array whose first
element lacks the expected `content` array first replaces the transcription
accumulator and then throws on `content[0]` — the exception is caught, but
the accumulator is left changed ("p" became "T") even though handling
failed, contradicting the claim that accumulators are unchanged whenever
handling fails. -/
theorem malformed_done_retains_partial_mutation :
    dispatchV2
        (doneMsg [("input_transcription", Json.str "T"),
                  ("output", Json.arr [Json.obj []])])
        { initialState with transcription := "p" }
      = Except.error { initialState with transcription := "T" } ∧
    (handleV2
        (some (doneMsg [("input_transcription", Json.str "T"),
                        ("output", Json.arr [Json.obj []])]))
        { initialState with transcription := "p" }).transcription = "T" ∧
    ("T" : String) ≠ "p" :=
  ⟨rfl, rfl, by decide⟩

/-- C8 amended: both inbound handlers are total over arbitrary frames — a
parse failure is dropped with the state fully unchanged, no exception
propagates (the handlers always return a state), and the connection flag is
never changed by any frame.  In the primary handler a handling failure
leaves the whole state unchanged; in the legacy handler a handling failure
leaves `responseText` unchanged and leaves the transcription either
unchanged or — when a truthy final input transcription was applied before
the malformed `output` path threw — replaced by that final value. -/
theorem handler_totality_and_failure_frame (m : Json) (s : AState) :
    handleV1 none s = s ∧ handleV2 none s = s ∧
    (handleV1 (some m) s).isConnected = s.isConnected ∧
    (handleV2 (some m) s).isConnected = s.isConnected ∧
    (∀ s1, dispatchV1 m s = Except.error s1 → s1 = s) ∧
    (∀ s1, dispatchV2 m s = Except.error s1 →
        s1.responseText = s.responseText ∧
        (s1.transcription = s.transcription ∨
         s1.transcription = undefToString
            (jsOptProp (jsProp m "response") "input_transcription"))) :=
  ⟨rfl, rfl, handleV1_preserves_isConnected m s,
   handleV2_preserves_isConnected m s,
   fun s1 h => dispatchV1_error_eq m s s1 h,
   fun s1 h => (dispatchV2_error_shape m s s1 h).2⟩

/-- Witness for the amended C8, discharging its failure hypotheses at
concrete malformed frames: the legacy handler failing on the malformed
`output` path keeps `responseText` and ends with the applied final
transcription, and the primary handler failing on a `session.created`
without a session leaves the state exactly as it was. -/
theorem handler_totality_and_failure_frame_witness :
    (({ initialState with transcription := "T" } : AState).responseText
        = ({ initialState with transcription := "p" } : AState).responseText ∧
     (({ initialState with transcription := "T" } : AState).transcription
          = ({ initialState with transcription := "p" } : AState).transcription ∨
      ({ initialState with transcription := "T" } : AState).transcription
          = undefToString (jsOptProp
              (jsProp (doneMsg [("input_transcription", Json.str "T"),
                                ("output", Json.arr [Json.obj []])]) "response")
              "input_transcription"))) ∧
    initialState = initialState :=
  ⟨(handler_totality_and_failure_frame
      (doneMsg [("input_transcription", Json.str "T"),
                ("output", Json.arr [Json.obj []])])
      { initialState with transcription := "p" }).2.2.2.2.2
      { initialState with transcription := "T" } rfl,
   (handler_totality_and_failure_frame
      (Json.obj [("type", Json.str "session.created")])
      initialState).2.2.2.2.1 initialState rfl⟩

/-- C10 counterexample: when the upstream provider returns a non-success
response (status 502) whose error body is not JSON, `await
openaiResponse.json()` rejects and the handler's catch returns 500 — the
response does not carry the provider's status code as the claim states. -/
theorem upstream_nonjson_error_body_hides_status :
    (describeScenePOST (some "k")
        (Except.ok (Json.obj [("image_data_url", Json.str "d")]))
        ⟨false, 502, Except.error ()⟩).status = 500 ∧
    (describeScenePOST (some "k")
        (Except.ok (Json.obj [("image_data_url", Json.str "d")]))
        ⟨false, 502, Except.error ()⟩).contactedUpstream = true ∧
    (500 : Nat) ≠ 502 := by
  refine ⟨rfl, rfl, by decide⟩

/-- C10 amended: the describe-scene POST handler rejects a request whose
body parses as JSON to a non-null value with no `image_data_url` field with
HTTP 400 without contacting the upstream provider — a body that parses to
JSON `null` instead throws in the destructuring and yields 500, still
without contacting the provider — and when the upstream provider returns a
non-success response whose error body parses as JSON, the handler's response
carries the provider's status code; a non-success upstream response with a
non-JSON body instead yields 500. -/
theorem describe_scene_post_error_handling (k : String) (j ji : Json)
    (u : Upstream) (eb : Json)
    (hnn : isNullLit j = false)
    (hno : jsProp j "image_data_url" = none)
    (himg : truthy (jsProp ji "image_data_url") = true)
    (hok : u.ok = false) (hbody : u.body = Except.ok eb) :
    (describeScenePOST (some k) (Except.ok j) u).status = 400 ∧
    (describeScenePOST (some k) (Except.ok j) u).contactedUpstream = false ∧
    (describeScenePOST (some k) (Except.ok Json.null) u).status = 500 ∧
    (describeScenePOST (some k) (Except.ok Json.null) u).contactedUpstream = false ∧
    (describeScenePOST (some k) (Except.ok ji) u).status = u.status ∧
    (describeScenePOST (some k) (Except.ok ji) u).contactedUpstream = true := by
  have hni : isNullLit ji = false := by
    cases ji <;> simp_all [isNullLit, jsProp, truthy]
  refine ⟨?_, ?_, rfl, rfl, ?_, ?_⟩
  · simp [describeScenePOST, hnn, hno, truthy]
  · simp [describeScenePOST, hnn, hno, truthy]
  · simp [describeScenePOST, hni, himg, hok, hbody]
  · simp [describeScenePOST, hni, himg, hok, hbody]

/-- Witness for the amended C10: a non-null body without an image is
rejected with 400 before any upstream contact, a JSON-null body yields 500
without contact, and a JSON-bodied 502 upstream failure is passed through
with status 502. -/
theorem describe_scene_post_error_handling_witness :
    (describeScenePOST (some "k") (Except.ok (Json.obj []))
        ⟨false, 502, Except.ok (Json.obj [])⟩).status = 400 ∧
    (describeScenePOST (some "k") (Except.ok (Json.obj []))
        ⟨false, 502, Except.ok (Json.obj [])⟩).contactedUpstream = false ∧
    (describeScenePOST (some "k") (Except.ok Json.null)
        ⟨false, 502, Except.ok (Json.obj [])⟩).status = 500 ∧
    (describeScenePOST (some "k") (Except.ok Json.null)
        ⟨false, 502, Except.ok (Json.obj [])⟩).contactedUpstream = false ∧
    (describeScenePOST (some "k")
        (Except.ok (Json.obj [("image_data_url", Json.str "d")]))
        ⟨false, 502, Except.ok (Json.obj [])⟩).status
        = (⟨false, 502, Except.ok (Json.obj [])⟩ : Upstream).status ∧
    (describeScenePOST (some "k")
        (Except.ok (Json.obj [("image_data_url", Json.str "d")]))
        ⟨false, 502, Except.ok (Json.obj [])⟩).contactedUpstream = true :=
  describe_scene_post_error_handling "k" (Json.obj [])
    (Json.obj [("image_data_url", Json.str "d")])
    ⟨false, 502, Except.ok (Json.obj [])⟩ (Json.obj [])
    rfl rfl (by decide) rfl rfl
